import Mathlib

/-!
Verification development for the hybrid-voice-assistant gateway.

The definitions below are a shallow embedding of the Python sources:

* `server/esphome/frame_helper.py` — the frame codec (`APIFrameHelper`):
  varint encode/decode, `encode_frame`, `feed_data`, `read_packet`.
* `server/esphome/api_server.py` — the per-connection session
  (`ESPHomeServerProtocol`): handshake, authentication, keep-alive, dispatch.
* `server/esphome/protocol.py` — the orchestrator
  (`ESPHomeProtocolHandler`): entity discovery, state subscription,
  wake-word mapping, voice-assistant configuration, audio bridging.
* `server/websocket_server.py` — the browser client hub (`WebSocketServer`):
  broadcast fan-out.

Bytes are modelled as `Nat` (each < 256 in real traffic; none of the code
paths below depend on the bound).  Python exceptions are modelled with an
explicit `Except` layer: `_decode_varint` raises `IndexError` when it runs
past the end of the buffer, and `read_packet` catches exactly that
exception, mirroring the `try/except IndexError` in the source.
-/

namespace Gateway

/-- Python exception kinds that appear in `frame_helper.py`. -/
inductive PyErr where
  | indexError
  | valueError
deriving DecidableEq

/-- Embedding of `APIFrameHelper._encode_varint` (frame_helper.py:33-44):
little-endian base-128 with continuation bit `0x80`.  The Python guard for
negative inputs is vacuous here because the domain is `Nat`. -/
def encode_varint (value : Nat) : List Nat :=
  if value > 0x7f then ((value &&& 0x7f) ||| 0x80) :: encode_varint (value >>> 7)
  else [value]
termination_by value
decreasing_by
  simp only [Nat.shiftRight_eq_div_pow]
  exact Nat.div_lt_self (by omega) (by norm_num)

unseal encode_varint

/-- Embedding of the loop body of `APIFrameHelper._decode_varint`
(frame_helper.py:46-60), operating on the buffer suffix that starts at the
current offset; returns the decoded value together with the number of
bytes consumed.  Running off the end of the buffer raises `IndexError`,
exactly as `raise IndexError("Buffer too short for varint")` does. -/
def decodeVarintList : List Nat → Nat → Nat → Except PyErr (Nat × Nat)
  | [], _, _ => .error .indexError
  | byte :: restBytes, value, shift =>
    let value2 := value ||| ((byte &&& 0x7f) <<< shift)
    if byte &&& 0x80 = 0 then .ok (value2, 1)
    else
      match decodeVarintList restBytes value2 (shift + 7) with
      | .ok (v, c) => .ok (v, c + 1)
      | .error e => .error e

/-- Embedding of `APIFrameHelper._decode_varint(buffer, offset)`:
returns `(value, new_offset)` or raises `IndexError`. -/
def decode_varint (buffer : List Nat) (offset : Nat) : Except PyErr (Nat × Nat) :=
  match decodeVarintList (buffer.drop offset) 0 0 with
  | .ok (v, c) => .ok (v, offset + c)
  | .error e => .error e

/-- Embedding of `APIFrameHelper.encode_frame` (frame_helper.py:15-31):
`0x00` preamble, varint payload length, varint message type, payload. -/
def encode_frame (msg_type : Nat) (data : List Nat) : List Nat :=
  0 :: (encode_varint data.length ++ (encode_varint msg_type ++ data))

/-- Embedding of Python `bytes.index(b'\x00')`: index of the first zero
byte, `none` when there is none (the `ValueError` case in the source is the
`none` branch at the call site). -/
def index_of_zero : List Nat → Option Nat
  | [] => none
  | b :: rest => if b = 0 then some 0 else (index_of_zero rest).map (· + 1)

/-- Embedding of `APIFrameHelper.feed_data` (frame_helper.py:62-64). -/
def feed_data (buffer data : List Nat) : List Nat :=
  buffer ++ data

/-- The part of `APIFrameHelper.read_packet` (frame_helper.py:85-105) that
runs after the preamble check / resynchronization: the minimum-length
guard, the two varint decodes inside `try/except IndexError`, the
completeness check, and the slicing of payload and remaining buffer.
Returns the optional extracted `(type, payload)` pair together with the new
buffer contents. -/
def parse_frame (buf : List Nat) : Except PyErr (Option (Nat × List Nat) × List Nat) :=
  if buf.length < 3 then .ok (none, buf)
  else
    match decode_varint buf 1 with
    | .error PyErr.indexError => .ok (none, buf)
    | .error PyErr.valueError => .error PyErr.valueError
    | .ok (length, offset1) =>
      match decode_varint buf offset1 with
      | .error PyErr.indexError => .ok (none, buf)
      | .error PyErr.valueError => .error PyErr.valueError
      | .ok (msg_type, offset2) =>
        if buf.length < offset2 + length then .ok (none, buf)
        else .ok (some (msg_type, (buf.drop offset2).take length), buf.drop (offset2 + length))

/-- Embedding of `APIFrameHelper.read_packet` (frame_helper.py:66-105).
An empty buffer yields nothing; a non-zero first byte triggers
resynchronization (scan for the next `0x00`; on `ValueError` the whole
buffer is discarded); then one frame extraction is attempted. -/
def read_packet (buffer : List Nat) : Except PyErr (Option (Nat × List Nat) × List Nat) :=
  match buffer with
  | [] => .ok (none, [])
  | b :: rest =>
    if b ≠ 0 then
      match index_of_zero (b :: rest) with
      | some idx => parse_frame ((b :: rest).drop idx)
      | none => .ok (none, [])
    else parse_frame (b :: rest)

/-- Embedding of the incremental delivery loop: feed one chunk, attempt one
extraction (as `data_received` in api_server.py does per chunk), carry the
codec buffer to the next chunk.  Collects the per-chunk extraction results.
The `.error` branch is unreachable (see `read_packet_total`). -/
def processChunks (buf : List Nat) : List (List Nat) → List (Option (Nat × List Nat)) × List Nat
  | [] => ([], buf)
  | c :: cs =>
    match read_packet (feed_data buf c) with
    | .ok (r, buf2) =>
      let rest := processChunks buf2 cs
      (r :: rest.1, rest.2)
    | .error _ => ([], feed_data buf c)

/-! ### Bit-level helper facts for the base-128 varint format -/

theorem and_127_of_lt {n : Nat} (h : n < 128) : n &&& 127 = n := by
  have h2 : n &&& 2 ^ 7 - 1 = n :=
    Nat.and_pow_two_sub_one_of_lt_two_pow (show n < 2 ^ 7 by omega)
  simpa using h2

theorem and_128_of_lt {n : Nat} (h : n < 128) : n &&& 128 = 0 := by
  apply Nat.eq_of_testBit_eq
  intro i
  have h128 : (128 : Nat) = 2 ^ 7 := by norm_num
  simp only [Nat.testBit_and, Nat.zero_testBit, h128, Nat.testBit_two_pow]
  rcases eq_or_ne (7 : Nat) i with rfl | hne
  · simp [Nat.testBit_lt_two_pow (show n < 2 ^ 7 by omega)]
  · simp [hne]

theorem or_128_and_128 (x : Nat) : (x ||| 128) &&& 128 = 128 := by
  apply Nat.eq_of_testBit_eq
  intro i
  simp only [Nat.testBit_and, Nat.testBit_or]
  cases h : Nat.testBit 128 i <;> simp [h]

theorem or_128_and_127 (x : Nat) : (x ||| 128) &&& 127 = x &&& 127 := by
  apply Nat.eq_of_testBit_eq
  intro i
  have h127 : (127 : Nat) = 2 ^ 7 - 1 := by norm_num
  have h128 : (128 : Nat) = 2 ^ 7 := by norm_num
  simp only [Nat.testBit_and, Nat.testBit_or, h127, h128,
    Nat.testBit_two_pow_sub_one, Nat.testBit_two_pow]
  by_cases hi : i < 7
  · simp [hi, show (7 : Nat) ≠ i by omega]
  · simp [hi]

theorem lor_shift_recombine (n s : Nat) :
    ((n &&& 127) <<< s) ||| ((n >>> 7) <<< (s + 7)) = n <<< s := by
  apply Nat.eq_of_testBit_eq
  intro i
  have h127 : (127 : Nat) = 2 ^ 7 - 1 := by norm_num
  simp only [h127, Nat.testBit_or, Nat.testBit_shiftLeft, Nat.testBit_and,
    Nat.testBit_shiftRight, Nat.testBit_two_pow_sub_one]
  rcases Nat.lt_or_ge i s with hi | hi
  · simp [show ¬ (s ≤ i) by omega, show ¬ (s + 7 ≤ i) by omega]
  · rcases Nat.lt_or_ge i (s + 7) with hi2 | hi2
    · simp [hi, show ¬ (s + 7 ≤ i) by omega, show i - s < 7 by omega]
    · simp [hi, hi2, show ¬ (i - s < 7) by omega, show 7 + (i - (s + 7)) = i - s by omega]

/-! ### Varint encode/decode facts -/

theorem encode_varint_length_pos (n : Nat) : 0 < (encode_varint n).length := by
  rw [encode_varint]
  split <;> simp

theorem encode_varint_ne_nil (n : Nat) : encode_varint n ≠ [] := by
  intro h
  have := encode_varint_length_pos n
  simp [h] at this

/-- Decoding a buffer that starts with the encoding of `n` consumes exactly
the encoded bytes and folds `n <<< s` into the accumulator. -/
theorem decodeVarintList_encode (n : Nat) : ∀ (rest : List Nat) (v s : Nat),
    decodeVarintList (encode_varint n ++ rest) v s
      = .ok (v ||| (n <<< s), (encode_varint n).length) := by
  induction n using Nat.strong_induction_on with
  | _ n ih =>
    intro rest v s
    rw [encode_varint]
    by_cases h : n > 127
    · have hlt : n >>> 7 < n := by
        simp only [Nat.shiftRight_eq_div_pow]
        exact Nat.div_lt_self (by omega) (by norm_num)
      simp only [if_pos h, List.cons_append, decodeVarintList]
      rw [if_neg (by rw [or_128_and_128]; omega)]
      rw [ih (n >>> 7) hlt rest (v ||| (((n &&& 127 ||| 128) &&& 127) <<< s)) (s + 7)]
      rw [or_128_and_127, Nat.and_assoc, Nat.and_self]
      rw [Nat.or_assoc, lor_shift_recombine]
      simp
    · simp only [if_neg h, List.cons_append, List.nil_append, decodeVarintList]
      rw [if_pos (and_128_of_lt (by omega)), and_127_of_lt (by omega)]
      simp

/-- Decoding a strictly truncated varint encoding raises `IndexError`. -/
theorem decodeVarintList_truncated (n : Nat) : ∀ (j v s : Nat),
    j < (encode_varint n).length →
    decodeVarintList ((encode_varint n).take j) v s = .error .indexError := by
  induction n using Nat.strong_induction_on with
  | _ n ih =>
    intro j v s hj
    rw [encode_varint] at hj ⊢
    by_cases h : n > 127
    · have hlt : n >>> 7 < n := by
        simp only [Nat.shiftRight_eq_div_pow]
        exact Nat.div_lt_self (by omega) (by norm_num)
      simp only [if_pos h] at hj ⊢
      cases j with
      | zero => simp [decodeVarintList]
      | succ j' =>
        simp only [List.take_succ_cons, decodeVarintList]
        rw [if_neg (by rw [or_128_and_128]; omega)]
        rw [ih (n >>> 7) hlt j' _ _ (by simpa using hj)]
    · simp only [if_neg h] at hj ⊢
      have hj0 : j = 0 := by simp at hj; omega
      subst hj0
      simp [decodeVarintList]

/-- A buffer of nothing but continuation bytes (`0x80`) never terminates a
varint; decoding runs off the end and raises `IndexError`. -/
theorem decodeVarintList_replicate_128 :
    ∀ (k v s : Nat), decodeVarintList (List.replicate k 128) v s = .error .indexError := by
  intro k
  induction k with
  | zero => intro v s; rfl
  | succ k ih =>
    intro v s
    simp only [List.replicate_succ, decodeVarintList]
    rw [if_neg (by norm_num)]
    rw [ih]

/-- The varint decoder either succeeds or raises `IndexError`; no other
exception escapes it. -/
theorem decodeVarintList_ok_or_index : ∀ (l : List Nat) (v s : Nat),
    decodeVarintList l v s = .error .indexError
      ∨ ∃ val c, decodeVarintList l v s = .ok (val, c) := by
  intro l
  induction l with
  | nil => intro v s; left; rfl
  | cons b tl ih =>
    intro v s
    by_cases hb : b &&& 128 = 0
    · right
      exact ⟨v ||| ((b &&& 127) <<< s), 1, by simp [decodeVarintList, hb]⟩
    · rcases ih (v ||| ((b &&& 127) <<< s)) (s + 7) with h | ⟨val, c, h⟩
      · left; simp [decodeVarintList, hb, h]
      · right; exact ⟨val, c + 1, by simp [decodeVarintList, hb, h]⟩

/-! ### Offset-level decode facts -/

theorem decode_varint_at {buffer : List Nat} {offset n : Nat} {rest : List Nat}
    (h : buffer.drop offset = encode_varint n ++ rest) :
    decode_varint buffer offset = .ok (n, offset + (encode_varint n).length) := by
  unfold decode_varint
  rw [h, decodeVarintList_encode]
  simp

theorem decode_varint_truncated_at {buffer : List Nat} {offset n j : Nat}
    (h : buffer.drop offset = (encode_varint n).take j)
    (hj : j < (encode_varint n).length) :
    decode_varint buffer offset = .error .indexError := by
  unfold decode_varint
  rw [h, decodeVarintList_truncated n j 0 0 hj]

theorem decode_varint_ok_or_index (buffer : List Nat) (offset : Nat) :
    decode_varint buffer offset = .error .indexError
      ∨ ∃ val o, decode_varint buffer offset = .ok (val, o) := by
  unfold decode_varint
  rcases decodeVarintList_ok_or_index (buffer.drop offset) 0 0 with h | ⟨val, c, h⟩
  · left; rw [h]
  · right; exact ⟨val, offset + c, by rw [h]⟩

/-! ### Frame-level facts -/

theorem encode_frame_length (msg_type : Nat) (data : List Nat) :
    (encode_frame msg_type data).length
      = 1 + (encode_varint data.length).length
          + (encode_varint msg_type).length + data.length := by
  simp [encode_frame]
  omega

theorem drop_one_cons (x : Nat) (l : List Nat) : (x :: l).drop 1 = l := rfl

theorem drop_cons_append (x : Nat) (l₁ l₂ : List Nat) :
    (x :: (l₁ ++ l₂)).drop (1 + l₁.length) = l₂ := by
  rw [Nat.add_comm, List.drop_succ_cons, List.drop_left]

/-- Extracting from a buffer that holds exactly one encoded frame yields
the frame's type and payload and leaves the buffer empty. -/
theorem parse_frame_encode (msg_type : Nat) (data : List Nat) :
    parse_frame (encode_frame msg_type data) = .ok (some (msg_type, data), []) := by
  have h1 := encode_varint_length_pos data.length
  have h2 := encode_varint_length_pos msg_type
  have hlen := encode_frame_length msg_type data
  have hd1 : (encode_frame msg_type data).drop 1
      = encode_varint data.length ++ (encode_varint msg_type ++ data) := rfl
  have hd2 : (encode_frame msg_type data).drop (1 + (encode_varint data.length).length)
      = encode_varint msg_type ++ data := drop_cons_append _ _ _
  have hd3 : (encode_frame msg_type data).drop
      (1 + (encode_varint data.length).length + (encode_varint msg_type).length) = data := by
    show ((0 : Nat) :: (encode_varint data.length ++ (encode_varint msg_type ++ data))).drop _ = _
    rw [← List.append_assoc]
    have h3 : 1 + (encode_varint data.length).length + (encode_varint msg_type).length
        = 1 + (encode_varint data.length ++ encode_varint msg_type).length := by
      simp; omega
    rw [h3, drop_cons_append]
  unfold parse_frame
  rw [if_neg (by omega)]
  simp only [decode_varint_at hd1, decode_varint_at hd2]
  rw [if_neg (by omega)]
  rw [Nat.add_assoc 1, ← Nat.add_assoc 1, hd3]
  rw [show 1 + (encode_varint data.length).length + (encode_varint msg_type).length + data.length
      = (encode_frame msg_type data).length by omega, List.drop_length]
  simp

/-- Extracting from a strictly partial frame yields nothing and leaves the
buffer untouched: truncated varints surface as (caught) `IndexError`, and a
truncated payload fails the completeness check. -/
theorem parse_frame_take (msg_type : Nat) (data : List Nat) (k : Nat)
    (hk : k < (encode_frame msg_type data).length) :
    parse_frame ((encode_frame msg_type data).take k)
      = .ok (none, (encode_frame msg_type data).take k) := by
  have h1 := encode_varint_length_pos data.length
  have h2 := encode_varint_length_pos msg_type
  have hlen := encode_frame_length msg_type data
  set F := encode_frame msg_type data with hF
  set E1 := encode_varint data.length with hE1
  set E2 := encode_varint msg_type with hE2
  have hklen : (F.take k).length = k := by
    rw [List.length_take]; omega
  have hlE1 : (encode_varint data.length).length = E1.length := by rw [hE1]
  have hlE2 : (encode_varint msg_type).length = E2.length := by rw [hE2]
  by_cases hk3 : k < 3
  · unfold parse_frame
    rw [if_pos (by omega)]
  · -- k ≥ 3, so the preamble and at least two more bytes are present
    obtain ⟨m, rfl⟩ : ∃ m, k = m + 1 := ⟨k - 1, by omega⟩
    have hFtake : F.take (m + 1) = 0 :: (E1 ++ (E2 ++ data)).take m := by
      rw [hF]; rfl
    have hdrop1 : (F.take (m + 1)).drop 1 = (E1 ++ (E2 ++ data)).take m := by
      rw [hFtake]; rfl
    unfold parse_frame
    rw [if_neg (by omega)]
    by_cases hmE1 : m < E1.length
    · -- the length varint itself is truncated
      have htr : (F.take (m + 1)).drop 1 = E1.take m := by
        rw [hdrop1, List.take_append_eq_append_take,
          show m - E1.length = 0 by omega]
        simp
      simp only [decode_varint_truncated_at htr hmE1]
    · -- the length varint is complete
      have hsplit : (E1 ++ (E2 ++ data)).take m = E1 ++ (E2 ++ data).take (m - E1.length) := by
        rw [List.take_append_eq_append_take, List.take_of_length_le (by omega)]
      have hd1 : (F.take (m + 1)).drop 1 = E1 ++ (E2 ++ data).take (m - E1.length) := by
        rw [hdrop1, hsplit]
      have hd2 : (F.take (m + 1)).drop (1 + E1.length) = (E2 ++ data).take (m - E1.length) := by
        rw [hFtake, Nat.add_comm, List.drop_succ_cons, hsplit, List.drop_left]
      by_cases hmE2 : m - E1.length < E2.length
      · -- the type varint is truncated
        have htr2 : (F.take (m + 1)).drop (1 + E1.length) = E2.take (m - E1.length) := by
          rw [hd2, List.take_append_eq_append_take,
            show m - E1.length - E2.length = 0 by omega]
          simp
        simp only [decode_varint_at hd1, decode_varint_truncated_at htr2 hmE2]
      · -- both varints complete; the payload must be truncated
        have hsplit2 : (E2 ++ data).take (m - E1.length)
            = E2 ++ data.take (m - E1.length - E2.length) := by
          rw [List.take_append_eq_append_take, List.take_of_length_le (by omega)]
        have hd2' : (F.take (m + 1)).drop (1 + E1.length)
            = E2 ++ data.take (m - E1.length - E2.length) := by
          rw [hd2, hsplit2]
        simp only [decode_varint_at hd1, decode_varint_at hd2']
        rw [if_pos (by omega)]

/-! ### `read_packet` facts -/

/-- A buffer holding exactly one encoded frame is decoded to that frame. -/
theorem read_packet_encode (msg_type : Nat) (data : List Nat) :
    read_packet (encode_frame msg_type data) = .ok (some (msg_type, data), []) := by
  show read_packet (0 :: (encode_varint data.length ++ (encode_varint msg_type ++ data))) = _
  simp only [read_packet]
  rw [if_neg (by simp)]
  exact parse_frame_encode msg_type data

/-- A buffer holding a strictly partial frame yields nothing and is left
unchanged, awaiting more data. -/
theorem read_packet_take (msg_type : Nat) (data : List Nat) (k : Nat)
    (hk : k < (encode_frame msg_type data).length) :
    read_packet ((encode_frame msg_type data).take k)
      = .ok (none, (encode_frame msg_type data).take k) := by
  cases k with
  | zero => rfl
  | succ m =>
    have htake : (encode_frame msg_type data).take (m + 1)
        = 0 :: (encode_varint data.length ++ (encode_varint msg_type ++ data)).take m := rfl
    rw [htake]
    simp only [read_packet]
    rw [if_neg (by simp)]
    rw [← htake]
    exact parse_frame_take msg_type data (m + 1) hk

theorem index_of_zero_none {l : List Nat} (h : ∀ b ∈ l, b ≠ 0) :
    index_of_zero l = none := by
  induction l with
  | nil => rfl
  | cons b rest ih =>
    have hb : b ≠ 0 := h b (by simp)
    show (if b = 0 then some 0 else (index_of_zero rest).map (· + 1)) = none
    rw [if_neg hb, ih (fun x hx => h x (by simp [hx]))]
    rfl

theorem index_of_zero_append {g : List Nat} (tl : List Nat) (h : ∀ b ∈ g, b ≠ 0) :
    index_of_zero (g ++ 0 :: tl) = some g.length := by
  induction g with
  | nil => rfl
  | cons b rest ih =>
    have hb : b ≠ 0 := h b (by simp)
    show (if b = 0 then some 0 else (index_of_zero (rest ++ 0 :: tl)).map (· + 1))
      = some (rest.length + 1)
    rw [if_neg hb, ih (fun x hx => h x (by simp [hx]))]
    rfl

/-- Resynchronization: any run of non-zero garbage bytes in front of a
complete frame is discarded and the frame is extracted in the same
`read_packet` call. -/
theorem read_packet_garbage (g : List Nat) (msg_type : Nat) (data : List Nat)
    (hg : ∀ b ∈ g, b ≠ 0) :
    read_packet (g ++ encode_frame msg_type data) = .ok (some (msg_type, data), []) := by
  cases g with
  | nil => simpa using read_packet_encode msg_type data
  | cons x g' =>
    have hx : x ≠ 0 := hg x (by simp)
    have hidx : index_of_zero (x :: (g' ++ encode_frame msg_type data))
        = some (g'.length + 1) := by
      show index_of_zero ((x :: g')
        ++ 0 :: (encode_varint data.length ++ (encode_varint msg_type ++ data)))
        = some ((x :: g').length)
      exact index_of_zero_append _ hg
    show read_packet (x :: (g' ++ encode_frame msg_type data)) = _
    simp only [read_packet, if_pos hx, hidx]
    rw [List.drop_succ_cons, List.drop_left]
    exact read_packet_encode msg_type data

/-- When the buffer contains no `0x00` byte at all, resynchronization
discards the whole buffer and no frame is produced. -/
theorem read_packet_no_preamble (buffer : List Nat) (h : ∀ b ∈ buffer, b ≠ 0) :
    read_packet buffer = .ok (none, []) := by
  cases buffer with
  | nil => rfl
  | cons b rest =>
    have hb : b ≠ 0 := h b (by simp)
    simp only [read_packet, if_pos hb, index_of_zero_none h]

/-- `parse_frame` never lets an exception escape: the only exception its
body can raise is the varint decoder's `IndexError`, and that is caught. -/
theorem parse_frame_ok (buf : List Nat) : ∃ r, parse_frame buf = .ok r := by
  unfold parse_frame
  by_cases h3 : buf.length < 3
  · exact ⟨(none, buf), by rw [if_pos h3]⟩
  · rw [if_neg h3]
    rcases decode_varint_ok_or_index buf 1 with h | ⟨length, offset1, h⟩
    · exact ⟨(none, buf), by simp only [h]⟩
    · simp only [h]
      rcases decode_varint_ok_or_index buf offset1 with h2 | ⟨msg_type, offset2, h2⟩
      · exact ⟨(none, buf), by simp only [h2]⟩
      · simp only [h2]
        by_cases hfull : buf.length < offset2 + length
        · exact ⟨(none, buf), by rw [if_pos hfull]⟩
        · exact ⟨(some (msg_type, (buf.drop offset2).take length),
            buf.drop (offset2 + length)), by rw [if_neg hfull]⟩

/-- `read_packet` is total: on every buffer it returns normally. -/
theorem read_packet_ok (buffer : List Nat) : ∃ r, read_packet buffer = .ok r := by
  cases buffer with
  | nil => exact ⟨(none, []), rfl⟩
  | cons b rest =>
    simp only [read_packet]
    by_cases hb : b ≠ 0
    · rw [if_pos hb]
      cases hidx : index_of_zero (b :: rest) with
      | none => exact ⟨(none, []), by simp only [hidx]⟩
      | some idx => simp only [hidx]; exact parse_frame_ok _
    · rw [if_neg hb]
      exact parse_frame_ok _

theorem decode_varint_replicate_128 (j : Nat) :
    decode_varint (0 :: List.replicate j 128) 1 = .error .indexError := by
  unfold decode_varint
  rw [show (0 :: List.replicate j 128).drop 1 = List.replicate j 128 from rfl,
    decodeVarintList_replicate_128]

/-- A buffer consisting of the preamble followed by any number of varint
continuation bytes is treated as incomplete input, not as an error. -/
theorem read_packet_continuation (j : Nat) :
    read_packet (0 :: List.replicate j 128) = .ok (none, 0 :: List.replicate j 128) := by
  simp only [read_packet]
  rw [if_neg (by simp)]
  unfold parse_frame
  by_cases h3 : (0 :: List.replicate j 128).length < 3
  · rw [if_pos h3]
  · rw [if_neg h3]
    simp only [decode_varint_replicate_128]

/-! ### Incremental chunk delivery -/

theorem filterMap_id_map_none {α β : Type} (l : List α) :
    (l.map (fun _ => (none : Option β))).filterMap id = [] := by
  induction l with
  | nil => rfl
  | cons x xs ih => simp

/-- Once the whole frame has been consumed, the remaining (necessarily
empty) chunks produce nothing and the buffer stays empty. -/
theorem processChunks_all_nil (cs : List (List Nat)) (h : ∀ c ∈ cs, c = []) :
    processChunks [] cs = (cs.map (fun _ => none), []) := by
  induction cs with
  | nil => rfl
  | cons c cs ih =>
    have hc : c = [] := h c (by simp)
    subst hc
    simp only [processChunks, feed_data, List.append_nil,
      show read_packet [] = .ok (none, []) from rfl]
    rw [ih (fun x hx => h x (by simp [hx]))]
    rfl

/-- Invariant for incremental delivery: starting from a buffer that holds a
proper non-empty position inside the frame, processing the remaining chunks
produces exactly one extraction, of the full frame, and drains the buffer. -/
theorem processChunks_main (msg_type : Nat) (data : List Nat) :
    ∀ (cs : List (List Nat)) (pre : List Nat),
      pre ++ cs.flatten = encode_frame msg_type data →
      pre.length < (encode_frame msg_type data).length →
      (processChunks pre cs).1.filterMap id = [(msg_type, data)]
        ∧ (processChunks pre cs).2 = [] := by
  intro cs
  induction cs with
  | nil =>
    intro pre h hlt
    rw [List.flatten_nil, List.append_nil] at h
    rw [h] at hlt
    omega
  | cons c cs ih =>
    intro pre h hlt
    rw [List.flatten_cons, ← List.append_assoc] at h
    have hle : (pre ++ c).length + cs.flatten.length = (encode_frame msg_type data).length := by
      have h2 := congrArg List.length h
      simp only [List.length_append] at h2 ⊢
      omega
    simp only [processChunks, feed_data]
    by_cases hfull : (pre ++ c).length < (encode_frame msg_type data).length
    · -- still a proper position inside the frame: nothing is extracted
      have htake : (encode_frame msg_type data).take ((pre ++ c).length) = pre ++ c := by
        rw [← h, List.take_left]
      have hrp : read_packet (pre ++ c) = .ok (none, pre ++ c) := by
        have := read_packet_take msg_type data ((pre ++ c).length) hfull
        rwa [htake] at this
      simp only [hrp]
      have := ih (pre ++ c) h hfull
      simp only [List.filterMap_cons_none (by rfl : id (none : Option (Nat × List Nat)) = none)]
      exact this
    · -- the frame is now complete: this chunk finishes it
      have hflatlen : cs.flatten.length = 0 := by omega
      have hflat : cs.flatten = [] := List.eq_nil_of_length_eq_zero hflatlen
      have hpcF : pre ++ c = encode_frame msg_type data := by
        rw [← h, hflat, List.append_nil]
      simp only [hpcF, read_packet_encode]
      rw [processChunks_all_nil cs (by
        intro x hx
        have := List.flatten_eq_nil_iff.mp hflat
        exact this x hx)]
      constructor
      · simp only [List.filterMap_cons_some (by rfl : id (some (msg_type, data)) = some (msg_type, data))]
        rw [filterMap_id_map_none]
      · rfl

/-! ### Claim theorems for the frame codec -/

/-- Claim C4 (confirmed): for every message type and every payload,
encoding a frame and feeding the encoded bytes to a fresh codec yields
exactly the pair `(type, payload)` on extraction and leaves the buffer
empty. -/
theorem encode_decode_roundtrip (msg_type : Nat) (data : List Nat) :
    read_packet (feed_data [] (encode_frame msg_type data))
      = .ok (some (msg_type, data), []) := by
  show read_packet ([] ++ encode_frame msg_type data) = _
  rw [List.nil_append]
  exact read_packet_encode msg_type data

/-- Claim C3, counterexample: the claim quantifies over every choice of
garbage whose first byte is non-zero.  With garbage `[1, 0]` (first byte
non-zero, but containing a `0x00`) in front of the valid frame
`encode_frame 5 [] = [0, 0, 5]`, resynchronization stops at the embedded
zero byte and extraction returns the frame `(0, [])` with `[5]` left in the
buffer — not the valid frame `(5, [])` with the garbage discarded. -/
theorem resync_zero_in_garbage_cex :
    read_packet ([1, 0] ++ encode_frame 5 []) = .ok (some (0, []), [5])
      ∧ ((0 : Nat), ([] : List Nat)) ≠ ((5 : Nat), ([] : List Nat)) :=
  ⟨rfl, by decide⟩

/-- Claim C3 (amended): for any N ≥ 0 garbage bytes all of which are
non-zero, feeding garbage-then-frame and extracting yields exactly the
valid frame with the garbage discarded; and when no `0x00` byte appears
anywhere in the buffer, the buffer is fully drained with no frame emitted
and no error raised. -/
theorem resync_nonzero_garbage :
    (∀ (g : List Nat) (msg_type : Nat) (data : List Nat), (∀ b ∈ g, b ≠ 0) →
        read_packet (g ++ encode_frame msg_type data) = .ok (some (msg_type, data), []))
    ∧ (∀ buffer : List Nat, (∀ b ∈ buffer, b ≠ 0) →
        read_packet buffer = .ok (none, [])) :=
  ⟨read_packet_garbage, read_packet_no_preamble⟩

theorem resync_nonzero_garbage_witness :
    read_packet ([1, 2] ++ encode_frame 5 [9]) = .ok (some (5, [9]), [])
      ∧ read_packet [1, 2, 3] = .ok (none, []) :=
  ⟨resync_nonzero_garbage.1 [1, 2] 5 [9] (by decide),
    resync_nonzero_garbage.2 [1, 2, 3] (by decide)⟩

/-- Claim C5 (confirmed): splitting an encoded frame into arbitrary chunks
and feeding them one at a time, attempting one extraction after each chunk,
yields exactly one extracted frame — the encoded one — with all partial
prefixes yielding nothing; the final buffer is empty, matching the result
of feeding all bytes at once. -/
theorem chunked_feed_invariance (msg_type : Nat) (data : List Nat)
    (chunks : List (List Nat))
    (hc : chunks.flatten = encode_frame msg_type data) :
    (processChunks [] chunks).1.filterMap id = [(msg_type, data)]
      ∧ (processChunks [] chunks).2 = []
      ∧ read_packet (encode_frame msg_type data) = .ok (some (msg_type, data), []) := by
  have h0 : [] ++ chunks.flatten = encode_frame msg_type data := by
    rw [List.nil_append]; exact hc
  have hlt : ([] : List Nat).length < (encode_frame msg_type data).length := by
    have hlen := encode_frame_length msg_type data
    have h1 := encode_varint_length_pos data.length
    simp only [List.length_nil]
    omega
  obtain ⟨ha, hb⟩ := processChunks_main msg_type data chunks [] h0 hlt
  exact ⟨ha, hb, read_packet_encode msg_type data⟩

theorem chunked_feed_invariance_witness :
    (processChunks [] [[0], [2, 5], [9], [9]]).1.filterMap id = [(5, [9, 9])]
      ∧ (processChunks [] [[0], [2, 5], [9], [9]]).2 = []
      ∧ read_packet (encode_frame 5 [9, 9]) = .ok (some (5, [9, 9]), []) :=
  chunked_feed_invariance 5 [9, 9] [[0], [2, 5], [9], [9]] rfl

/-- Claim C10 (confirmed): frame extraction is total.  `read_packet`
returns normally on every buffer (the `IndexError` of a truncated varint
and the `ValueError` of a failed preamble scan are both caught), and a
buffer holding a preamble followed by arbitrarily many varint continuation
bytes `0x80` is treated as incomplete input awaiting more data, not as an
error. -/
theorem read_packet_total :
    (∀ buffer : List Nat, ∃ r, read_packet buffer = .ok r)
    ∧ (∀ j : Nat, read_packet (0 :: List.replicate j 128)
        = .ok (none, 0 :: List.replicate j 128)) :=
  ⟨read_packet_ok, read_packet_continuation⟩

/-!
### Protocol session and orchestrator model

Shallow embedding of `api_server.py` and `protocol.py`.  Outbound protobuf
messages are modelled as an inductive `Msg` carrying exactly the fields the
source sets; inbound payloads arrive already parsed (`InboundMsg`) — the
source wraps each handler in `try/except`, so a payload that fails to parse
is logged and dropped, which the model's fall-through `(h, [])` branches
mirror.  The float literal `0.5` of the source is modelled as the rational
`1/2`.  Side effects (frames written to the device transport, JSON/audio
broadcasts scheduled on the websocket hub, fire-and-forget media-play
tasks) are collected in order as an effect list.
-/

/-- Outbound device-protocol messages, with the fields `protocol.py` and
`api_server.py` populate. -/
inductive Msg where
  | helloResponse (api_version_major api_version_minor : Nat) (server_info name : String)
  | authenticationResponse (invalid_password : Bool)
  | disconnectResponse
  | pingResponse
  | deviceInfoResponse (mac_address name model manufacturer project_name
      project_version esphome_version : String) (voice_assistant_feature_flags : Nat)
  | listEntitiesMediaPlayerResponse (object_id : String) (key : Nat) (name : String)
      (supports_pause : Bool) (feature_flags : Nat)
      (supported_formats : List (String × Nat × Nat × Nat))
  | listEntitiesSelectResponse (object_id : String) (key : Nat) (name : String)
      (entity_category : Nat) (options : List String)
  | listEntitiesSwitchResponse (object_id : String) (key : Nat) (name : String)
      (entity_category : Nat)
  | listEntitiesBinarySensorResponse (object_id : String) (key : Nat) (name : String)
      (entity_category : Nat)
  | listEntitiesDoneResponse
  | mediaPlayerStateResponse (key state : Nat) (volume : Rat) (muted : Bool)
  | selectStateResponse (key : Nat) (state : String)
  | switchStateResponse (key : Nat) (state : Bool)
  | binarySensorStateResponse (key : Nat) (state : Bool)
  | voiceAssistantAudio (data : List Nat)
  | voiceAssistantConfigurationResponse
      (available_wake_words : List (String × String))
      (active_wake_words : List String) (max_active_wake_words : Nat)
deriving DecidableEq

/-- JSON control messages the orchestrator attempts to broadcast to
browser clients (the payloads built at protocol.py:66-70 and 284-287). -/
inductive WsMsg where
  | voice_event (event_type : Nat) (data : List (String × String))
  | config_update (wake_word : String)
deriving DecidableEq

/-- Python exception kinds that can escape an orchestrator handler and be
caught by `on_message`'s `try/except` (protocol.py:30, 107-108). -/
inductive PyExc where
  | attributeError
deriving DecidableEq

/-- Observable side effects of the handlers, in emission order. -/
inductive Eff where
  | frame (msg_type : Nat) (msg : Msg)
  | wsBroadcastMessage (m : WsMsg)
  | wsBroadcastAudio (data : List Nat)
  | startPlayMedia (url : String)
  | closeTransport
deriving DecidableEq

/-- Per-connection session state of `ESPHomeServerProtocol`
(api_server.py:12-20): `_authenticated`, set only by `_handle_connect`. -/
structure Session where
  authenticated : Bool
deriving DecidableEq

/-- State of `ESPHomeProtocolHandler` (protocol.py:11-26):
the current session reference, the `_connected` flag, whether a websocket
server is attached, and `current_wake_word` (an `Option` because the
attribute does not exist until first assigned — the `hasattr` checks in the
source). -/
structure Handler where
  protocol : Option Session
  connected : Bool
  websocket_server : Bool
  current_wake_word : Option String
deriving DecidableEq

/-- Inbound messages, already parsed from their protobuf payloads. -/
inductive InboundMsg where
  | helloRequest (client_info : String)
  | connectRequest (password : String)
  | disconnectRequest
  | pingRequest
  | deviceInfoRequest
  | listEntitiesRequest
  | subscribeStatesRequest
  | subscribeVoiceAssistantRequest (subscribe : Bool)
  | voiceAssistantResponseMsg (port : Nat) (error : Bool)
  | voiceAssistantEventResponse (event_type : Nat) (data : List (String × String))
  | voiceAssistantConfigurationRequest
  | voiceAssistantSetConfiguration (active_wake_words : List String)
      (active_wake_word : Option String)
  | mediaPlayerCommandRequest (command : Nat) (has_media_url : Bool)
      (media_url : String) (has_volume : Bool) (volume : Rat)
  | voiceAssistantAudio (data : List Nat)
  | otherPayload
deriving DecidableEq

/-- Embedding of `ESPHomeProtocolHandler.on_connect` (protocol.py:23-26):
stores the session reference and sets `_connected`. -/
def on_connect (h : Handler) (s : Session) : Handler :=
  { h with protocol := some s, connected := true }

/-- Embedding of `ESPHomeProtocolHandler._send` (protocol.py:110-112):
emits a frame only when a session reference is present. -/
def _send (h : Handler) (msg : Msg) (msg_type : Nat) : List Eff :=
  if h.protocol.isSome then [.frame msg_type msg] else []

/-- Embedding of the calls `self.websocket_server.broadcast_message(...)`
(protocol.py:66 and protocol.py:284), each guarded by
`if self.websocket_server:`.  `WebSocketServer` (websocket_server.py)
defines `notify_start_listening` and `broadcast_audio` but no
`broadcast_message` method, and nothing assigns one dynamically — so when
a hub is attached, the attribute lookup raises `AttributeError` before
anything is scheduled; with no hub attached the guard skips the call.
Either way no broadcast is delivered.  Returns the delivered effects
(none) and the escaping exception, if any; the `WsMsg` argument records
the payload the source builds for the call. -/
def ws_broadcast_message (h : Handler) (_m : WsMsg) : List Eff × Option PyExc :=
  if h.websocket_server then ([], some .attributeError) else ([], none)

/-- Embedding of `_map_ww_to_client` (protocol.py:114-118). -/
def _map_ww_to_client (ha_ww : String) : String :=
  if ha_ww = "alexa" then "alexa_v0.1"
  else if ha_ww = "okay_nabu" then "okay_nabu_v0.1"
  else ha_ww

/-- Embedding of `_map_ww_to_ha` (protocol.py:120-124). -/
def _map_ww_to_ha (client_ww : String) : String :=
  if client_ww = "alexa_v0.1" then "alexa"
  else if client_ww = "okay_nabu_v0.1" then "okay_nabu"
  else client_ww

/-- Embedding of `_handle_device_info` (protocol.py:151-162). -/
def _handle_device_info (h : Handler) : List Eff :=
  _send h (.deviceInfoResponse "02:00:00:00:00:01" "Hybrid Voice Assistant" "Generic"
    "ESPHome" "hybrid.voice_assistant" "1.0.0" "2024.10.2"
    (1 ||| 2 ||| 4 ||| 8 ||| 16 ||| 32)) 10

/-- Embedding of `_handle_list_entities` (protocol.py:164-209). -/
def _handle_list_entities (h : Handler) : List Eff :=
  _send h (.listEntitiesMediaPlayerResponse "hybrid_voice_assistant_speaker" 1
      "Hybrid Voice Assistant Speaker" true 1200653 [("wav", 16000, 1, 2)]) 63
    ++ _send h (.listEntitiesSelectResponse "pipeline" 2 "Pipeline" 1 ["default"]) 52
    ++ _send h (.listEntitiesSwitchResponse "mute" 4 "Mute Microphone" 1) 17
    ++ _send h (.listEntitiesBinarySensorResponse "assist_active" 5 "Assist Active" 2) 12
    ++ _send h .listEntitiesDoneResponse 19

/-- Embedding of `_handle_subscribe_states` (protocol.py:332-365): the five
initial state messages, in source order, including the key-3 wake-word
select state. -/
def _handle_subscribe_states (h : Handler) : List Eff :=
  _send h (.mediaPlayerStateResponse 1 1 (1/2 : Rat) false) 64
    ++ _send h (.selectStateResponse 2 "default") 53
    ++ _send h (.selectStateResponse 3 "okay_nabu") 53
    ++ _send h (.switchStateResponse 4 false) 26
    ++ _send h (.binarySensorStateResponse 5 false) 21

/-- Embedding of `send_audio_chunk` (protocol.py:220-226): wraps the chunk
in a `VoiceAssistantAudio` message (type 106) when `self.protocol` is set
and `self._connected` is true; otherwise does nothing. -/
def send_audio_chunk (h : Handler) (chunk : List Nat) : List Eff :=
  if h.protocol.isSome ∧ h.connected then _send h (.voiceAssistantAudio chunk) 106
  else []

/-- Embedding of `_handle_voice_assistant_configuration_request`
(protocol.py:228-256): populates the two available wake words (the
`hasattr` probe for `wake_word_id` versus `id` is modelled by the second
tuple component), defaults `current_wake_word` to `"okay_nabu_v0.1"` when
the attribute is still unset, and replies with message type 122.  The
`getD` default is unreachable: `current_wake_word` is always set at that
point. -/
def _handle_voice_assistant_configuration_request (h : Handler) : Handler × List Eff :=
  let h2 := if h.current_wake_word = none
    then { h with current_wake_word := some "okay_nabu_v0.1" } else h
  let ha_active := _map_ww_to_ha (h2.current_wake_word.getD "okay_nabu_v0.1")
  (h2, _send h2 (.voiceAssistantConfigurationResponse
    [("okay_nabu", "okay_nabu"), ("alexa", "alexa")] [ha_active] 1) 122)

/-- Embedding of `_handle_voice_assistant_set_configuration`
(protocol.py:258-292): prefer the first element of the plural list, fall
back to a present-and-non-empty legacy singular field (the `hasattr` and
truthiness test is modelled by the `Option`), otherwise warn and return.
On success: map to the client identifier, store it (line 279), then
attempt the `config_update` broadcast (lines 282-289).  When a hub is
attached that attempt raises `AttributeError` (see
`ws_broadcast_message`), aborting the handler before the confirmation at
line 292; the escaping exception is returned for the dispatcher to catch.
Only when no hub is attached does control reach the fresh configuration
response. -/
def _handle_voice_assistant_set_configuration (h : Handler)
    (active_wake_words : List String) (active_wake_word : Option String) :
    Handler × List Eff × Option PyExc :=
  let proceed := fun (ha_ww : String) =>
    let cw := _map_ww_to_client ha_ww
    let h2 := { h with current_wake_word := some cw }
    let b := ws_broadcast_message h2 (.config_update cw)
    match b.2 with
    | some e => (h2, b.1, some e)
    | none =>
      let r := _handle_voice_assistant_configuration_request h2
      (r.1, b.1 ++ r.2, none)
  match active_wake_words with
  | ha_ww :: _ => proceed ha_ww
  | [] =>
    match active_wake_word with
    | some ha_ww => proceed ha_ww
    | none => (h, [], none)

/-- Embedding of `ESPHomeProtocolHandler.on_message` (protocol.py:28-108):
dispatch on the message-type code, in source order.  Branches whose parsed
payload does not match the expected message shape fall through to
`(h, [])`, mirroring the surrounding `try/except` that logs and drops. -/
def on_message (h : Handler) (msg_type : Nat) (req : InboundMsg) : Handler × List Eff :=
  if msg_type = 9 then (h, _handle_device_info h)
  else if msg_type = 11 then (h, _handle_list_entities h)
  else if msg_type = 20 then (h, _handle_subscribe_states h)
  else if msg_type = 52 then (h, [])
  else if msg_type = 89 then (h, [])
  else if msg_type = 91 then (h, [])
  else if msg_type = 92 then
    match req with
    | .voiceAssistantEventResponse event_type data =>
      -- protocol.py:64-72 forwards the event via the nonexistent
      -- `broadcast_message`; the AttributeError (hub attached) is caught by
      -- this function's own `try/except` — nothing is delivered either way.
      (h, (ws_broadcast_message h (.voice_event event_type data)).1)
    | _ => (h, [])
  else if msg_type = 121 then _handle_voice_assistant_configuration_request h
  else if msg_type = 123 then
    match req with
    | .voiceAssistantSetConfiguration ws lw =>
      -- an AttributeError escaping the handler is caught and logged by the
      -- `except` at protocol.py:107-108: state and effects so far stand.
      let r := _handle_voice_assistant_set_configuration h ws lw
      (r.1, r.2.1)
    | _ => (h, [])
  else if msg_type = 65 then
    match req with
    | .mediaPlayerCommandRequest _ has_media_url media_url _ _ =>
      (h, if has_media_url ∧ media_url ≠ "" then [.startPlayMedia media_url] else [])
    | _ => (h, [])
  else if msg_type = 106 then
    match req with
    | .voiceAssistantAudio data =>
      (h, if h.websocket_server then [.wsBroadcastAudio data] else [])
    | _ => (h, [])
  else (h, [])

/-- Embedding of `ESPHomeServerProtocol._handle_packet` (api_server.py:42-72)
composed with the orchestrator dispatch: types 1/3/5/7 are handled by the
session itself (Hello, Connect/auth, Disconnect, Ping); every other type is
forwarded to `on_message` with no check of the `_authenticated` flag.
Returns the new `_authenticated` flag, the new handler state, and the
emitted effects. -/
def handle_packet_full (auth : Bool) (h : Handler) (msg_type : Nat) (req : InboundMsg) :
    Bool × Handler × List Eff :=
  if msg_type = 1 then
    (auth, h, [.frame 2 (.helloResponse 2 10 "HybridSatellite" "hybrid-satellite")])
  else if msg_type = 3 then
    (true, h, [.frame 4 (.authenticationResponse false)])
  else if msg_type = 5 then
    (auth, h, [.frame 6 .disconnectResponse, .closeTransport])
  else if msg_type = 7 then
    (auth, h, [.frame 8 .pingResponse])
  else
    let r := on_message h msg_type req
    (auth, r.1, r.2)

/-- Sequential processing of inbound packets on one session, concatenating
the emitted effects. -/
def run_packets (auth : Bool) (h : Handler) : List (Nat × InboundMsg) → Bool × Handler × List Eff
  | [] => (auth, h, [])
  | (t, r) :: rest =>
    let s1 := handle_packet_full auth h t r
    let s2 := run_packets s1.1 s1.2.1 rest
    (s2.1, s2.2.1, s1.2.2 ++ s2.2.2)

/-- Embedding of `WebSocketServer.broadcast_audio`
(websocket_server.py:208-215): `asyncio.gather` over one send per
registered client with `return_exceptions=True` — every send is attempted,
each client's outcome (success or captured exception) is recorded
independently, and the collected results are discarded rather than
propagated.  Clients are modelled by identifiers, and the per-client send
outcome by a function into `Except`. -/
def broadcast_audio (clients : List Nat) (sendf : Nat → Except String Unit) :
    Except String (List (Except String Unit)) :=
  if clients.isEmpty then .ok []
  else .ok (clients.map sendf)

/-! ### Claim theorems for the protocol session and orchestrator -/

/-- Claim C1, counterexample: `_handle_subscribe_states` does not emit
states only for the catalogue entries with keys 1, 2, 4 and 5 — it also
emits a fifth Select state for key 3 (the stray wake-word selector), so the
"and no others" part of the claim is false on the code. -/
theorem subscribe_states_emits_stray_key3 :
    _handle_subscribe_states ⟨some ⟨true⟩, true, true, some "okay_nabu_v0.1"⟩
      = [.frame 64 (.mediaPlayerStateResponse 1 1 (1/2 : Rat) false),
         .frame 53 (.selectStateResponse 2 "default"),
         .frame 53 (.selectStateResponse 3 "okay_nabu"),
         .frame 26 (.switchStateResponse 4 false),
         .frame 21 (.binarySensorStateResponse 5 false)]
      ∧ Eff.frame 53 (.selectStateResponse 3 "okay_nabu")
          ∈ _handle_subscribe_states ⟨some ⟨true⟩, true, true, some "okay_nabu_v0.1"⟩
      ∧ (3 : Nat) ∉ [1, 2, 4, 5] :=
  ⟨rfl, by decide, by decide⟩

/-- Claim C1 (amended): whenever a session is attached,
`subscribeStates` emits exactly five current-state messages in declaration
order: a MediaPlayer state for key 1 (Idle-coded value 1, volume 1/2,
unmuted), a Select state for key 2 (`"default"`), a stray Select state for
key 3 (`"okay_nabu"`, the removed wake-word selector), a Switch state for
key 4 (off), and a BinarySensor state for key 5 (off) — each using the
state-message subtype matching the entity's kind. -/
theorem subscribe_states_emits_five_states (h : Handler) (s : Session)
    (hp : h.protocol = some s) :
    _handle_subscribe_states h
      = [.frame 64 (.mediaPlayerStateResponse 1 1 (1/2 : Rat) false),
         .frame 53 (.selectStateResponse 2 "default"),
         .frame 53 (.selectStateResponse 3 "okay_nabu"),
         .frame 26 (.switchStateResponse 4 false),
         .frame 21 (.binarySensorStateResponse 5 false)] := by
  unfold _handle_subscribe_states _send
  rw [hp]
  rfl

theorem subscribe_states_emits_five_states_witness :
    _handle_subscribe_states ⟨some ⟨false⟩, true, false, none⟩
      = [.frame 64 (.mediaPlayerStateResponse 1 1 (1/2 : Rat) false),
         .frame 53 (.selectStateResponse 2 "default"),
         .frame 53 (.selectStateResponse 3 "okay_nabu"),
         .frame 26 (.switchStateResponse 4 false),
         .frame 21 (.binarySensorStateResponse 5 false)] :=
  subscribe_states_emits_five_states ⟨some ⟨false⟩, true, false, none⟩ ⟨false⟩ rfl

/-- Claim C2, counterexample: a session that exists but has NOT completed
the Connect/auth exchange still receives audio chunks.  After `on_connect`
alone (which sets both the session reference and `_connected` at transport
accept, before any Hello or Connect frame), `send_audio_chunk` wraps and
writes the chunk even though the session's `_authenticated` flag is false —
so "if and only if … authenticated" is false on the code. -/
theorem send_audio_chunk_unauthenticated_sends :
    send_audio_chunk (on_connect ⟨none, false, false, none⟩ ⟨false⟩) [1, 2, 3]
      = [.frame 106 (.voiceAssistantAudio [1, 2, 3])]
      ∧ (on_connect ⟨none, false, false, none⟩ ⟨false⟩).protocol = some ⟨false⟩
      ∧ (⟨false⟩ : Session).authenticated = false :=
  ⟨rfl, rfl, rfl⟩

/-- Claim C2 (amended): `send_audio_chunk` wraps the chunk in an
audio-frame message (type 106) and writes it to the current session if and
only if a session reference exists and the handler's `_connected` flag is
set (both are set together when a device connects, independently of
authentication); otherwise the call is a no-op that drops the chunk —
nothing is buffered or queued and nothing is raised. -/
theorem send_audio_chunk_iff_connected (h : Handler) (chunk : List Nat) :
    (send_audio_chunk h chunk = [.frame 106 (.voiceAssistantAudio chunk)]
        ↔ h.protocol.isSome = true ∧ h.connected = true)
      ∧ (¬ (h.protocol.isSome = true ∧ h.connected = true) →
          send_audio_chunk h chunk = []) := by
  unfold send_audio_chunk _send
  by_cases hp : h.protocol.isSome = true <;> by_cases hc : h.connected = true <;>
    simp [hp, hc]

theorem send_audio_chunk_iff_connected_witness :
    (send_audio_chunk ⟨some ⟨true⟩, true, false, none⟩ [7]
        = [.frame 106 (.voiceAssistantAudio [7])]
      ↔ (some (⟨true⟩ : Session)).isSome = true ∧ true = true)
      ∧ (¬ ((some (⟨true⟩ : Session)).isSome = true ∧ true = true) →
          send_audio_chunk ⟨some ⟨true⟩, true, false, none⟩ [7] = []) :=
  send_audio_chunk_iff_connected ⟨some ⟨true⟩, true, false, none⟩ [7]

/-- Claim C6 (confirmed): on a fresh session (`_authenticated = false`),
processing Hello (type 1), then Connect (type 3), then Ping (type 7)
produces exactly three outbound frames in order — HelloResponse (type 2)
with the fixed server identity and protocol version 2.10,
AuthenticationResponse (type 4) with `invalid_password = false`, and
PingResponse (type 8) — and afterwards the session is authenticated
(`Ready`). -/
theorem handshake_scenario :
    run_packets false ⟨none, false, false, none⟩
      [(1, .helloRequest "client"), (3, .connectRequest ""), (7, .pingRequest)]
      = (true, ⟨none, false, false, none⟩,
         [.frame 2 (.helloResponse 2 10 "HybridSatellite" "hybrid-satellite"),
          .frame 4 (.authenticationResponse false),
          .frame 8 .pingResponse]) :=
  rfl

/-- Claim C7 (code bug): the claim — update the selection, broadcast one
`config_update`, send one type-122 confirmation — matches the code's own
stated intent ("Notify WebSocket client with Client ID", "Send updated
config back to HA to confirm", protocol.py:281, 291) and the spec, but
`WebSocketServer` defines no `broadcast_message` method.  Evaluating the
model at the failing input (request with active list `["alexa"]`, hub and
session attached): the selection is updated to `"alexa_v0.1"`, then the
broadcast attempt raises `AttributeError`, the dispatcher catches it, and
neither the `config_update` broadcast nor the type-122 confirmation is
delivered.  For contrast, with no hub attached the guard skips the dead
call and only the type-122 confirmation goes out. -/
theorem set_configuration_broadcast_missing_method :
    _handle_voice_assistant_set_configuration ⟨some ⟨true⟩, true, true, none⟩
        ["alexa"] none
      = (⟨some ⟨true⟩, true, true, some "alexa_v0.1"⟩, [], some .attributeError)
      ∧ on_message ⟨some ⟨true⟩, true, true, none⟩ 123
          (.voiceAssistantSetConfiguration ["alexa"] none)
        = (⟨some ⟨true⟩, true, true, some "alexa_v0.1"⟩, [])
      ∧ _handle_voice_assistant_set_configuration ⟨some ⟨true⟩, true, false, none⟩
          ["alexa"] none
        = (⟨some ⟨true⟩, true, false, some "alexa_v0.1"⟩,
           [.frame 122 (.voiceAssistantConfigurationResponse
             [("okay_nabu", "okay_nabu"), ("alexa", "alexa")] ["alexa"] 1)], none) :=
  ⟨rfl, rfl, rfl⟩

/-- Claim C8 (confirmed): `broadcast_audio` gathers one send per registered
client with exceptions returned as values: the result records, for every
registered client and in registry order, exactly that client's own send
outcome — so a failure of one client's send leaves every other client's
delivery attempted and completed, per-client errors are collected and
discarded, and the broadcast itself never raises. -/
theorem broadcast_audio_isolation (clients : List Nat)
    (sendf : Nat → Except String Unit) :
    broadcast_audio clients sendf = .ok (clients.map sendf)
      ∧ ∀ e, broadcast_audio clients sendf ≠ .error e := by
  unfold broadcast_audio
  by_cases h : clients.isEmpty
  · have : clients = [] := by simpa [List.isEmpty_iff] using h
    subst this
    simp
  · simp [h]

theorem broadcast_audio_isolation_witness :
    broadcast_audio [10, 11, 12] (fun c => if c = 11 then .error "boom" else .ok ())
        = .ok ([10, 11, 12].map (fun c => if c = 11 then .error "boom" else .ok ()))
      ∧ ∀ e, broadcast_audio [10, 11, 12]
          (fun c => if c = 11 then .error "boom" else .ok ()) ≠ .error e :=
  broadcast_audio_isolation [10, 11, 12] (fun c => if c = 11 then .error "boom" else .ok ())

/-- Claim C9 (confirmed): the session applies no handshake-state gating.
For every message type other than the locally handled 1/3/5/7, the packet
is forwarded to the dispatcher and answered identically whether the session
is fresh (`_authenticated = false`) or fully handshaken
(`_authenticated = true`), and the session state is left unchanged — no
message is rejected or deferred for not having reached `Ready`. -/
theorem no_handshake_gating (auth : Bool) (h : Handler) (msg_type : Nat)
    (req : InboundMsg) (h1 : msg_type ≠ 1) (h3 : msg_type ≠ 3) (h5 : msg_type ≠ 5)
    (h7 : msg_type ≠ 7) :
    (handle_packet_full auth h msg_type req).2 = on_message h msg_type req
      ∧ (handle_packet_full auth h msg_type req).2
        = (handle_packet_full true h msg_type req).2
      ∧ (handle_packet_full auth h msg_type req).1 = auth := by
  unfold handle_packet_full
  simp only [if_neg h1, if_neg h3, if_neg h5, if_neg h7]
  simp

theorem no_handshake_gating_witness :
    (handle_packet_full false ⟨some ⟨false⟩, true, true, none⟩ 20 .subscribeStatesRequest).2
        = on_message ⟨some ⟨false⟩, true, true, none⟩ 20 .subscribeStatesRequest
      ∧ (handle_packet_full false ⟨some ⟨false⟩, true, true, none⟩ 20 .subscribeStatesRequest).2
        = (handle_packet_full true ⟨some ⟨false⟩, true, true, none⟩ 20 .subscribeStatesRequest).2
      ∧ (handle_packet_full false ⟨some ⟨false⟩, true, true, none⟩ 20 .subscribeStatesRequest).1
        = false :=
  no_handshake_gating false ⟨some ⟨false⟩, true, true, none⟩ 20 .subscribeStatesRequest
    (by decide) (by decide) (by decide) (by decide)

end Gateway
